import Mathlib

/-!
Shallow embedding of the clinical-trials explorer backend
(`backend/app/main.py`, `backend/app/schemas.py`, `backend/app/models.py`).

The relational store is modelled as a sequence of rows in insertion order
together with the next id the store will assign (ids are assigned by the
store's integer primary key, monotonically). Each FastAPI handler becomes a
pure function on this state; a handler that can raise `HTTPException`
returns an `Except HTTPException` result paired with the (possibly updated)
store.

Calendar dates are opaque to every operation of this service, so they are
embedded as natural numbers.
-/

namespace ClinicalTrials

/-- The payload schema `ClinicalTrialCreate` of `schemas.py`: every mutable
field of a trial record, without the store-assigned id. `acronym` and
`description` are optional (nullable). -/
structure ClinicalTrialCreate where
  official_title : String
  acronym : Option String
  disease_area : String
  trial_phase : String
  status : String
  start_date : Nat
  end_date : Nat
  country : String
  sponsor : String
  description : Option String
deriving DecidableEq, Repr

/-- A stored trial row (`models.ClinicalTrial`): the payload fields plus the
store-assigned primary key `id`. -/
structure ClinicalTrial where
  id : Nat
  official_title : String
  acronym : Option String
  disease_area : String
  trial_phase : String
  status : String
  start_date : Nat
  end_date : Nat
  country : String
  sponsor : String
  description : Option String
deriving DecidableEq, Repr

/-- The mutable fields of a stored row, i.e. `model_dump()` of the row minus
its id. -/
def ClinicalTrial.payload (t : ClinicalTrial) : ClinicalTrialCreate :=
  { official_title := t.official_title
    acronym := t.acronym
    disease_area := t.disease_area
    trial_phase := t.trial_phase
    status := t.status
    start_date := t.start_date
    end_date := t.end_date
    country := t.country
    sponsor := t.sponsor
    description := t.description }

/-- Build a row from an id and a payload; this is
`ClinicalTrial(**trial.model_dump())` with the given primary key, and also
the result of `setattr`-ing every dumped field onto a row with that id. -/
def mkTrial (id : Nat) (c : ClinicalTrialCreate) : ClinicalTrial :=
  { id := id
    official_title := c.official_title
    acronym := c.acronym
    disease_area := c.disease_area
    trial_phase := c.trial_phase
    status := c.status
    start_date := c.start_date
    end_date := c.end_date
    country := c.country
    sponsor := c.sponsor
    description := c.description }

/-- `fastapi.HTTPException`: a status code and a detail message. -/
structure HTTPException where
  status_code : Nat
  detail : String
deriving DecidableEq, Repr

/-- `schemas.DeleteResponse` / the dict returned by `delete_trial`. -/
structure DeleteResponse where
  message : String
deriving DecidableEq, Repr

/-- The relational store backing the service: the table rows in insertion
order, plus the next primary-key value the store will assign. -/
structure Store where
  rows : List ClinicalTrial
  next_id : Nat
deriving DecidableEq, Repr

/-- The empty store; integer primary keys start at 1. -/
def Store.empty : Store := { rows := [], next_id := 1 }

/-- Well-formedness of a store state: row ids strictly increase in insertion
order (so they are unique), and every assigned id is below `next_id`. Both
hold of every state the store can reach. -/
def Store.WF (s : Store) : Prop :=
  s.rows.Pairwise (fun a b => a.id < b.id) ∧ ∀ t ∈ s.rows, t.id < s.next_id

instance (s : Store) : Decidable s.WF := by
  unfold Store.WF; infer_instance

/-- Python truthiness of an optional string parameter: `if disease_area:` is
taken when the parameter is present and non-empty (`None` and `""` are both
falsy). -/
def truthy : Option String → Bool
  | none => false
  | some v => !v.isEmpty

/-- The filter chain of `get_trials`: each of the three `if` statements adds
an exact-match `WHERE` clause only when its parameter is truthy. -/
def applyFilters (disease_area status country : Option String)
    (rows : List ClinicalTrial) : List ClinicalTrial :=
  let q := rows
  let q := if truthy disease_area then
    q.filter (fun t => t.disease_area == disease_area.getD "") else q
  let q := if truthy status then
    q.filter (fun t => t.status == status.getD "") else q
  let q := if truthy country then
    q.filter (fun t => t.country == country.getD "") else q
  q

/-- The combined row predicate the filter chain applies: the conjunction of
the exact-match constraints of the truthy parameters. -/
def matchesFilter (disease_area status country : Option String)
    (t : ClinicalTrial) : Bool :=
  (!truthy disease_area || t.disease_area == disease_area.getD "") &&
  (!truthy status || t.status == status.getD "") &&
  (!truthy country || t.country == country.getD "")

/-- Response shape of `GET /trials`: the handler returns
`{"total": ..., "limit": ..., "offset": ..., "data": ...}`, echoing the
pagination parameters unchanged. -/
structure ListResponse where
  total : Nat
  limit : Int
  offset : Int
  data : List ClinicalTrial
deriving DecidableEq, Repr

/-- Handler `get_trials`. Omitted query parameters get their declared
defaults (`limit = 10`, `offset = 0`); no validation is performed on any
parameter, and the handler raises nothing. `total` is computed by
`query.count()` before `offset`/`limit` are applied; `data` is the
`OFFSET`/`LIMIT` slice of the same filtered query (negative values are
passed to the store untouched; the slice below clamps them at 0). -/
def get_trials (disease_area status country : Option String)
    (limit offset : Option Int) (s : Store) : ListResponse :=
  let limit := limit.getD 10
  let offset := offset.getD 0
  let q := applyFilters disease_area status country s.rows
  let total_count := q.length
  let results := (q.drop offset.toNat).take limit.toNat
  { total := total_count, limit := limit, offset := offset, data := results }

/-- Handler `get_trial` (`GET /trials/{id}`): `first()` on the query
filtered by id, 404 when absent. Read-only, so the store is not returned. -/
def get_trial (id : Nat) (s : Store) : Except HTTPException ClinicalTrial :=
  match s.rows.find? (fun t => t.id == id) with
  | none => .error { status_code := 404, detail := "Trial not found" }
  | some existing_trial => .ok existing_trial

/-- Handler `create_trial` (`POST /trials`): builds a row from the dumped
payload, the store assigns the next primary key on commit, and the refreshed
row is returned. -/
def create_trial (trial : ClinicalTrialCreate) (s : Store) :
    ClinicalTrial × Store :=
  let db_trial := mkTrial s.next_id trial
  (db_trial, { rows := s.rows ++ [db_trial], next_id := s.next_id + 1 })

/-- Replace the first row whose id matches (the row `first()` returned) by
the updated row; every other row is untouched. -/
def replaceById (id : Nat) (u : ClinicalTrial) :
    List ClinicalTrial → List ClinicalTrial
  | [] => []
  | t :: ts => if t.id == id then u :: ts else t :: replaceById id u ts

/-- Handler `update_trial` (`PUT /trials/{id}`): find the row by id; if
absent raise 404 with the store untouched; otherwise `setattr` every dumped
payload field onto the found row (the id is not in the dump, so it is kept)
and commit. -/
def update_trial (id : Nat) (trial : ClinicalTrialCreate) (s : Store) :
    Except HTTPException ClinicalTrial × Store :=
  match s.rows.find? (fun t => t.id == id) with
  | none => (.error { status_code := 404, detail := "Trial not found" }, s)
  | some existing_trial =>
    let updated := mkTrial existing_trial.id trial
    (.ok updated, { s with rows := replaceById id updated s.rows })

/-- Remove the first row whose id matches (the row `db.delete` removes). -/
def removeById (id : Nat) : List ClinicalTrial → List ClinicalTrial
  | [] => []
  | t :: ts => if t.id == id then ts else t :: removeById id ts

/-- Handler `delete_trial` (`DELETE /trials/{id}`): find the row by id; if
absent raise 404 with the store untouched; otherwise delete it and return
`{"message": "Trial deleted"}`. -/
def delete_trial (id : Nat) (s : Store) :
    Except HTTPException DeleteResponse × Store :=
  match s.rows.find? (fun t => t.id == id) with
  | none => (.error { status_code := 404, detail := "Trial not found" }, s)
  | some _ =>
    (.ok { message := "Trial deleted" }, { s with rows := removeById id s.rows })

/-! ### Helper lemmas about the store and the filter chain -/

/-- A conditional filter is the filter by the condition-guarded predicate. -/
theorem filter_if_eq (c : Bool) (f : ClinicalTrial → Bool)
    (l : List ClinicalTrial) :
    (if c = true then l.filter f else l) = l.filter (fun a => !c || f a) := by
  cases c
  · simp
  · simp

/-- The sequential filter chain of `get_trials` applies exactly the combined
predicate `matchesFilter`. -/
theorem applyFilters_eq_filter (da st co : Option String)
    (rows : List ClinicalTrial) :
    applyFilters da st co rows = rows.filter (matchesFilter da st co) := by
  simp only [applyFilters]
  rw [filter_if_eq, filter_if_eq, filter_if_eq, List.filter_filter,
    List.filter_filter]
  refine List.filter_congr fun a _ => ?_
  simp only [matchesFilter]
  cases h1 : (!truthy da || a.disease_area == da.getD "") <;>
    cases h2 : (!truthy st || a.status == st.getD "") <;>
      cases h3 : (!truthy co || a.country == co.getD "") <;>
        simp [h1, h2, h3]

/-- One guarded exact-match clause holds exactly when the field matches
every supplied non-empty value of that criterion. -/
theorem match_one_iff (o : Option String) (x : String) :
    ((!truthy o || x == o.getD "") = true)
      ↔ (∀ v, o = some v → v ≠ "" → x = v) := by
  cases o with
  | none => simp [truthy]
  | some v =>
    by_cases hv : v = ""
    · subst hv
      have he : ("" : String).isEmpty = true := by decide
      simp [truthy, he]
    · have h : v.isEmpty = false := by
        rw [Bool.eq_false_iff]
        simpa [String.isEmpty_iff] using hv
      simp [truthy, h, hv]

/-- The combined predicate holds exactly when the record matches every
supplied non-empty criterion; absent and empty-string criteria constrain
nothing. -/
theorem matchesFilter_iff (da st co : Option String) (t : ClinicalTrial) :
    matchesFilter da st co t = true ↔
      (∀ v, da = some v → v ≠ "" → t.disease_area = v)
      ∧ (∀ v, st = some v → v ≠ "" → t.status = v)
      ∧ (∀ v, co = some v → v ≠ "" → t.country = v) := by
  unfold matchesFilter
  simp only [Bool.and_eq_true, match_one_iff]
  tauto

/-- `replaceById` keeps the list length. -/
theorem length_replaceById (id : Nat) (u : ClinicalTrial)
    (rows : List ClinicalTrial) :
    (replaceById id u rows).length = rows.length := by
  induction rows with
  | nil => rfl
  | cons a as ih =>
    by_cases h : (a.id == id) = true
    · simp [replaceById, h]
    · simp [replaceById, h, ih]

/-- Rows with a different id are untouched by `replaceById` (given the
replacement carries the target id). -/
theorem mem_replaceById_of_ne (id : Nat) (u t : ClinicalTrial)
    (hu : u.id = id) (ht : t.id ≠ id) (rows : List ClinicalTrial) :
    t ∈ replaceById id u rows ↔ t ∈ rows := by
  induction rows with
  | nil => simp [replaceById]
  | cons a as ih =>
    by_cases h : (a.id == id) = true
    · have ha : a.id = id := by simpa using h
      have htu : t ≠ u := fun he => ht (he ▸ hu)
      have hta : t ≠ a := fun he => ht (he ▸ ha)
      simp [replaceById, h, htu, hta]
    · simp [replaceById, h, ih]

/-- After `replaceById`, looking the target id up finds the replacement. -/
theorem find?_replaceById (id : Nat) (u e : ClinicalTrial) (hu : u.id = id)
    (rows : List ClinicalTrial)
    (hfind : rows.find? (fun t => t.id == id) = some e) :
    (replaceById id u rows).find? (fun t => t.id == id) = some u := by
  induction rows with
  | nil => simp at hfind
  | cons a as ih =>
    by_cases h : (a.id == id) = true
    · simp [replaceById, h, List.find?_cons, hu]
    · rw [List.find?_cons] at hfind
      simp only [h] at hfind
      simp [replaceById, h, List.find?_cons, ih hfind]

/-- Rows with a different id are untouched by `removeById`. -/
theorem mem_removeById_of_ne (id : Nat) (t : ClinicalTrial) (ht : t.id ≠ id)
    (rows : List ClinicalTrial) :
    t ∈ removeById id rows ↔ t ∈ rows := by
  induction rows with
  | nil => simp [removeById]
  | cons a as ih =>
    by_cases h : (a.id == id) = true
    · have ha : a.id = id := by simpa using h
      have hta : t ≠ a := fun he => ht (he ▸ ha)
      simp [removeById, h, hta]
    · simp [removeById, h, ih]

/-- `removeById` removes one row when the id is present. -/
theorem length_removeById (id : Nat) (e : ClinicalTrial)
    (rows : List ClinicalTrial)
    (hfind : rows.find? (fun t => t.id == id) = some e) :
    (removeById id rows).length + 1 = rows.length := by
  induction rows with
  | nil => simp at hfind
  | cons a as ih =>
    by_cases h : (a.id == id) = true
    · simp [removeById, h]
    · rw [List.find?_cons] at hfind
      simp only [h] at hfind
      simp [removeById, h, ih hfind]

/-- With strictly increasing ids, no row with the removed id survives
`removeById`. -/
theorem find?_removeById_eq_none (id : Nat) (rows : List ClinicalTrial)
    (huniq : rows.Pairwise (fun a b => a.id < b.id)) :
    (removeById id rows).find? (fun t => t.id == id) = none := by
  induction rows with
  | nil => simp [removeById]
  | cons a as ih =>
    rw [List.pairwise_cons] at huniq
    by_cases h : (a.id == id) = true
    · have ha : a.id = id := by simpa using h
      rw [removeById]
      simp only [h, if_true]
      rw [List.find?_eq_none]
      intro t htmem
      have := huniq.1 t htmem
      simp only [beq_iff_eq]
      omega
    · rw [removeById]
      simp only [h, if_false, Bool.false_eq_true]
      rw [List.find?_cons]
      simp only [h, Bool.false_eq_true]
      exact ih huniq.2

/-- Concatenating consecutive `(drop, take)` pages reconstructs a prefix. -/
theorem flatMap_range_pages {α : Type} (xs : List α) (l n : Nat) :
    (List.range n).flatMap (fun k => (xs.drop (k * l)).take l)
      = xs.take (n * l) := by
  induction n with
  | zero => simp
  | succ n ih =>
    rw [List.range_succ, List.flatMap_append, ih]
    simp only [List.flatMap_cons, List.flatMap_nil, List.append_nil]
    rw [← List.take_add]
    congr 1
    ring

/-! ### Concrete sample data for witnesses and counterexamples -/

/-- A sample payload (the neurology example of the test suite). -/
def samplePayload : ClinicalTrialCreate :=
  { official_title := "A Study on Cognitive Enhancement"
    acronym := some "ACE"
    disease_area := "Neurology"
    trial_phase := "Phase II"
    status := "Ongoing"
    start_date := 20250101
    end_date := 20251231
    country := "Germany"
    sponsor := "European Brain Institute"
    description := some "Testing a new neurostimulant in adults." }

/-- A second sample payload (the cardiology example of the test suite). -/
def samplePayload2 : ClinicalTrialCreate :=
  { official_title := "A Study on Cardio Regeneration"
    acronym := some "HEART-RX"
    disease_area := "Cardiology"
    trial_phase := "Phase III"
    status := "Completed"
    start_date := 20250215
    end_date := 20260215
    country := "France"
    sponsor := "Institut du Coeur"
    description := none }

/-- Sample stored row with id 1. -/
def sampleTrial1 : ClinicalTrial := mkTrial 1 samplePayload

/-- Sample stored row with id 2. -/
def sampleTrial2 : ClinicalTrial := mkTrial 2 samplePayload2

/-- Sample stored row with id 3. -/
def sampleTrial3 : ClinicalTrial := mkTrial 3 samplePayload

/-- A sample store holding three rows. -/
def sampleStore : Store :=
  { rows := [sampleTrial1, sampleTrial2, sampleTrial3], next_id := 4 }

/-! ### Claims -/

/-- Claim C1: for every store state, every combination of supplied/absent
filter criteria, and every (limit, offset) pair, the `total` field of the
list response equals the number of stored records satisfying the filter,
and is independent of limit and offset. -/
theorem get_trials_total_is_filter_count_and_page_independent
    (da st co : Option String) (l1 o1 l2 o2 : Option Int) (s : Store) :
    (get_trials da st co l1 o1 s).total
      = s.rows.countP (matchesFilter da st co)
    ∧ (get_trials da st co l1 o1 s).total
      = (get_trials da st co l2 o2 s).total := by
  constructor
  · simp [get_trials, applyFilters_eq_filter, List.countP_eq_length_filter]
  · simp [get_trials]

/-- Claim C2 counterexample: the disease-area criterion supplied as the
empty string is a supplied criterion the sample record does not satisfy as
an exact match, yet the record is in the pre-pagination matching set (and
is returned): the claimed membership equivalence fails at this input. -/
theorem filter_membership_claim_counterexample :
    ¬ (sampleTrial1 ∈ applyFilters (some "") none none [sampleTrial1]
        ↔ sampleTrial1.disease_area = "") := by
  decide

/-- Claim C2 (amended: a criterion supplied as the empty string is treated
like an absent one): a record is in the pre-pagination matching set of
`get_trials` iff it is stored and satisfies every supplied *non-empty*
criterion as an exact string match; absent and empty-string criteria impose
no constraint, and an unmatched filter yields an empty result set, not an
error. -/
theorem get_trials_membership (da st co : Option String) (s : Store)
    (t : ClinicalTrial) :
    (t ∈ applyFilters da st co s.rows
      ↔ t ∈ s.rows
        ∧ (∀ v, da = some v → v ≠ "" → t.disease_area = v)
        ∧ (∀ v, st = some v → v ≠ "" → t.status = v)
        ∧ (∀ v, co = some v → v ≠ "" → t.country = v))
    ∧ (applyFilters da st co s.rows = [] →
        (get_trials da st co none none s).total = 0
        ∧ (get_trials da st co none none s).data = []) := by
  constructor
  · rw [applyFilters_eq_filter, List.mem_filter, matchesFilter_iff]
  · intro h
    simp [get_trials, h]

/-- Claim C2 witness: membership instantiated at a store where the single
supplied criterion matches, and emptiness at a store where it does not. -/
theorem get_trials_membership_witness :
    (sampleTrial1 ∈ applyFilters (some "Neurology") none none
        sampleStore.rows
      ↔ sampleTrial1 ∈ sampleStore.rows
        ∧ (∀ v, some "Neurology" = some v → v ≠ "" →
            sampleTrial1.disease_area = v)
        ∧ (∀ v, (none : Option String) = some v → v ≠ "" →
            sampleTrial1.status = v)
        ∧ (∀ v, (none : Option String) = some v → v ≠ "" →
            sampleTrial1.country = v))
    ∧ ((get_trials (some "Genetics") none none none none sampleStore).total
        = 0
      ∧ (get_trials (some "Genetics") none none none none sampleStore).data
        = []) := by
  constructor
  · exact (get_trials_membership (some "Neurology") none none sampleStore
      sampleTrial1).1
  · exact (get_trials_membership (some "Genetics") none none sampleStore
      sampleTrial1).2 (by decide)

/-- Claim C8 counterexample: supplying `disease_area=""` produces exactly
the same response as omitting the criterion, and returns the sample record
even though its field is not the empty string — the empty string acts as
match-all, not as an exact-match constraint. -/
theorem empty_string_filter_counterexample :
    get_trials (some "") none none none none sampleStore
      = get_trials none none none none none sampleStore
    ∧ sampleTrial1 ∈ (get_trials (some "") none none none none
        sampleStore).data
    ∧ sampleTrial1.disease_area ≠ "" := by
  refine ⟨rfl, ?_, by decide⟩
  decide

/-- Claim C8 (amended: supplying a criterion as the empty string is NOT
distinguishable from omitting it): an empty-string criterion is treated as
absent — it imposes no constraint on its field — because the handler guards
each filter with Python truthiness. -/
theorem empty_string_filter_is_match_all (da st co : Option String)
    (lim off : Option Int) (s : Store) :
    get_trials (some "") st co lim off s = get_trials none st co lim off s
    ∧ get_trials da (some "") co lim off s = get_trials da none co lim off s
    ∧ get_trials da st (some "") lim off s = get_trials da st none lim off s := by
  have he : truthy (some "") = false := by decide
  have hn : truthy none = false := rfl
  refine ⟨?_, ?_, ?_⟩ <;> simp [get_trials, applyFilters, he, hn]

/-- Claim C9 counterexample: the handler accepts a negative limit and a
negative offset — it returns a normal 200-style response echoing them, with
the total still computed — instead of rejecting them, so the "must be ≥ 0"
part of the claim fails. -/
theorem pagination_accepts_negative_counterexample :
    get_trials none none none (some (-1)) (some (-2)) Store.empty
      = { total := 0, limit := -1, offset := -2, data := [] }
    ∧ (get_trials none none none (some (-1)) (some (-2)) sampleStore).total
      = 3 := by
  constructor
  · rfl
  · rfl

/-- Claim C9 (amended: omitted pagination parameters default to limit = 10
and offset = 0; the handler performs no non-negativity validation — any
integer, negative included, is accepted and echoed unchanged). -/
theorem get_trials_defaults_and_no_validation (da st co : Option String)
    (l o : Int) (s : Store) :
    get_trials da st co none none s = get_trials da st co (some 10) (some 0) s
    ∧ (get_trials da st co (some l) (some o) s).limit = l
    ∧ (get_trials da st co (some l) (some o) s).offset = o := by
  exact ⟨rfl, rfl, rfl⟩

/-- Claim C3: if no record with the id exists, update fails with a 404
`NotFound` and the store is completely unchanged (no write is attempted);
if the record exists, the full replace is applied and the updated record is
returned. -/
theorem update_absent_notfound_present_replaces (id : Nat)
    (y : ClinicalTrialCreate) (s : Store) :
    ((∀ t ∈ s.rows, t.id ≠ id) →
      update_trial id y s
        = (.error { status_code := 404, detail := "Trial not found" }, s))
    ∧ (∀ e, s.rows.find? (fun t => t.id == id) = some e →
        update_trial id y s
          = (.ok (mkTrial e.id y),
             { s with rows := replaceById id (mkTrial e.id y) s.rows })) := by
  constructor
  · intro h
    have hf : s.rows.find? (fun t => t.id == id) = none := by
      rw [List.find?_eq_none]
      intro t ht
      simpa using h t ht
    simp [update_trial, hf]
  · intro e he
    simp [update_trial, he]

/-- Claim C3 witness: no-op 404 on an absent id, and the full replace on a
present one, both on a concrete store. -/
theorem update_absent_notfound_present_replaces_witness :
    update_trial 99 samplePayload sampleStore
      = (.error { status_code := 404, detail := "Trial not found" },
         sampleStore)
    ∧ update_trial 2 samplePayload sampleStore
      = (.ok (mkTrial 2 samplePayload),
         { sampleStore with
            rows := replaceById 2 (mkTrial 2 samplePayload)
              sampleStore.rows }) := by
  constructor
  · exact (update_absent_notfound_present_replaces 99 samplePayload
      sampleStore).1 (by decide)
  · exact (update_absent_notfound_present_replaces 2 samplePayload
      sampleStore).2 sampleTrial2 (by decide)

/-- Claim C4: after a successful update(id, Y), getting the same id returns
a record all of whose mutable fields equal the corresponding field of Y
(none retained from the prior state), with the id preserved. -/
theorem update_then_get_full_replace (id : Nat) (y : ClinicalTrialCreate)
    (s : Store) (r : ClinicalTrial)
    (h : (update_trial id y s).1 = .ok r) :
    r.payload = y ∧ r.id = id
    ∧ get_trial id (update_trial id y s).2 = .ok r := by
  cases hf : s.rows.find? (fun t => t.id == id) with
  | none => simp [update_trial, hf] at h
  | some e =>
    have he : e.id = id := by simpa using List.find?_some hf
    simp only [update_trial, hf] at h ⊢
    have hr : r = mkTrial e.id y := by simpa using h.symm
    subst hr
    refine ⟨rfl, he, ?_⟩
    simp only [get_trial]
    rw [find?_replaceById id (mkTrial e.id y) e (by simp [mkTrial, he])
      s.rows hf]

/-- Claim C4 witness: the round trip evaluated after replacing row 1 with
the cardiology payload. -/
theorem update_then_get_full_replace_witness :
    (mkTrial 1 samplePayload2).payload = samplePayload2
    ∧ (mkTrial 1 samplePayload2).id = 1
    ∧ get_trial 1 (update_trial 1 samplePayload2 sampleStore).2
      = .ok (mkTrial 1 samplePayload2) :=
  update_then_get_full_replace 1 samplePayload2 sampleStore
    (mkTrial 1 samplePayload2) rfl

/-- Claim C5: create succeeds with the store-assigned id (the store's next
primary key), and a subsequent get of that id returns a record equal to the
payload in every field except the assigned id. -/
theorem create_then_get_roundtrip (y : ClinicalTrialCreate) (s : Store)
    (hwf : s.WF) :
    (create_trial y s).1.id = s.next_id
    ∧ (create_trial y s).1.payload = y
    ∧ get_trial (create_trial y s).1.id (create_trial y s).2
      = .ok (create_trial y s).1 := by
  refine ⟨rfl, rfl, ?_⟩
  have h1 : s.rows.find? (fun t => t.id == s.next_id) = none := by
    rw [List.find?_eq_none]
    intro t ht
    have := hwf.2 t ht
    simp only [beq_iff_eq]
    omega
  simp [create_trial, get_trial, List.find?_append, h1, mkTrial]

/-- Claim C5 witness: the round trip evaluated on the concrete sample
store. -/
theorem create_then_get_roundtrip_witness :
    (create_trial samplePayload2 sampleStore).1.id = sampleStore.next_id
    ∧ (create_trial samplePayload2 sampleStore).1.payload = samplePayload2
    ∧ get_trial (create_trial samplePayload2 sampleStore).1.id
        (create_trial samplePayload2 sampleStore).2
      = .ok (create_trial samplePayload2 sampleStore).1 :=
  create_then_get_roundtrip samplePayload2 sampleStore (by decide)

/-- Claim C6: delete succeeds at most once — on success the body is exactly
`{"message": "Trial deleted"}`, and afterwards both get and delete on that
id fail with the 404 `NotFound` (the failed delete also leaves the store
unchanged), never any other fault. -/
theorem delete_finality (id : Nat) (s : Store) (m : DeleteResponse)
    (hwf : s.WF) (h : (delete_trial id s).1 = .ok m) :
    m = { message := "Trial deleted" }
    ∧ get_trial id (delete_trial id s).2
      = .error { status_code := 404, detail := "Trial not found" }
    ∧ delete_trial id (delete_trial id s).2
      = (.error { status_code := 404, detail := "Trial not found" },
         (delete_trial id s).2) := by
  cases hf : s.rows.find? (fun t => t.id == id) with
  | none => simp [delete_trial, hf] at h
  | some e =>
    simp only [delete_trial, hf] at h ⊢
    have hm : m = { message := "Trial deleted" } := by simpa using h.symm
    have hnone := find?_removeById_eq_none id s.rows hwf.1
    refine ⟨hm, ?_, ?_⟩
    · simp [get_trial, hnone]
    · simp [delete_trial, hnone]

/-- Claim C6 witness: deleting row 2 of the sample store, then observing
both subsequent operations fail with 404. -/
theorem delete_finality_witness :
    ({ message := "Trial deleted" } : DeleteResponse)
      = { message := "Trial deleted" }
    ∧ get_trial 2 (delete_trial 2 sampleStore).2
      = .error { status_code := 404, detail := "Trial not found" }
    ∧ delete_trial 2 (delete_trial 2 sampleStore).2
      = (.error { status_code := 404, detail := "Trial not found" },
         (delete_trial 2 sampleStore).2) :=
  delete_finality 2 sampleStore { message := "Trial deleted" } (by decide) rfl

/-- Claim C7: over unchanged data the returned page is ordered by strictly
ascending id (insertion order) — the response is a pure function of the
request and store, hence deterministic and stable — and concatenating the
pages at offsets 0, l, 2·l, … reproduces exactly the full filtered ordered
result set, so pagination is well-defined. -/
theorem list_order_and_pagination_coverage (da st co : Option String)
    (lim off : Option Int) (s : Store) (l n : Nat) (hwf : s.WF)
    (hn : (applyFilters da st co s.rows).length ≤ n * l) :
    (get_trials da st co lim off s).data.Pairwise (fun a b => a.id < b.id)
    ∧ (List.range n).flatMap
        (fun k => (get_trials da st co (some (l : Int))
          (some ((k * l : Nat) : Int)) s).data)
      = applyFilters da st co s.rows := by
  have hq : (applyFilters da st co s.rows).Pairwise
      (fun a b => a.id < b.id) := by
    rw [applyFilters_eq_filter]
    exact List.Pairwise.sublist (List.filter_sublist s.rows) hwf.1
  constructor
  · simp only [get_trials]
    exact List.Pairwise.sublist
      ((List.take_sublist _ _).trans (List.drop_sublist _ _)) hq
  · have hpage : (fun k : Nat => (get_trials da st co (some (l : Int))
        (some ((k * l : Nat) : Int)) s).data)
        = fun k : Nat =>
            ((applyFilters da st co s.rows).drop (k * l)).take l := by
      funext k
      simp only [get_trials, Option.getD_some, Int.toNat_ofNat]
    rw [hpage, flatMap_range_pages]
    exact List.take_of_length_le hn

/-- Claim C7 witness: two pages of size 2 over the three-row sample store
reproduce the full result set, which is ascending in id. -/
theorem list_order_and_pagination_coverage_witness :
    (get_trials none none none none none sampleStore).data.Pairwise
      (fun a b => a.id < b.id)
    ∧ (List.range 2).flatMap
        (fun k => (get_trials none none none (some ((2 : Nat) : Int))
          (some ((k * 2 : Nat) : Int)) sampleStore).data)
      = applyFilters none none none sampleStore.rows :=
  list_order_and_pagination_coverage none none none none none sampleStore
    2 2 (by decide) (by decide)

/-- Claim C10: every mutation touches only its target — create appends
exactly one new record leaving every pre-existing row unchanged; a
successful update keeps the target's id, the row count, and every row with
a different id; a successful delete removes exactly one row and keeps every
row with a different id. -/
theorem mutations_touch_only_target (id : Nat) (y : ClinicalTrialCreate)
    (s : Store) :
    (create_trial y s).2.rows = s.rows ++ [(create_trial y s).1]
    ∧ (∀ r, (update_trial id y s).1 = .ok r →
        r.id = id
        ∧ (update_trial id y s).2.rows.length = s.rows.length
        ∧ ∀ t, t.id ≠ id →
            (t ∈ (update_trial id y s).2.rows ↔ t ∈ s.rows))
    ∧ (∀ m, (delete_trial id s).1 = .ok m →
        (delete_trial id s).2.rows.length + 1 = s.rows.length
        ∧ ∀ t, t.id ≠ id →
            (t ∈ (delete_trial id s).2.rows ↔ t ∈ s.rows)) := by
  refine ⟨rfl, ?_, ?_⟩
  · intro r h
    cases hf : s.rows.find? (fun t => t.id == id) with
    | none => simp [update_trial, hf] at h
    | some e =>
      have he : e.id = id := by simpa using List.find?_some hf
      simp only [update_trial, hf] at h ⊢
      have hr : r = mkTrial e.id y := by simpa using h.symm
      subst hr
      exact ⟨he, length_replaceById id (mkTrial e.id y) s.rows,
        fun t ht => mem_replaceById_of_ne id (mkTrial e.id y) t
          (by simp [mkTrial, he]) ht s.rows⟩
  · intro m h
    cases hf : s.rows.find? (fun t => t.id == id) with
    | none => simp [delete_trial, hf] at h
    | some e =>
      simp only [delete_trial, hf]
      exact ⟨length_removeById id e s.rows hf,
        fun t ht => mem_removeById_of_ne id t ht s.rows⟩

/-- Claim C10 witness: the frame conditions evaluated on the sample store
(create appends, update at id 2 keeps the row count, delete at id 2 keeps
row 1). -/
theorem mutations_touch_only_target_witness :
    (create_trial samplePayload sampleStore).2.rows
      = sampleStore.rows ++ [(create_trial samplePayload sampleStore).1]
    ∧ (update_trial 2 samplePayload sampleStore).2.rows.length
      = sampleStore.rows.length
    ∧ (sampleTrial1 ∈ (delete_trial 2 sampleStore).2.rows
        ↔ sampleTrial1 ∈ sampleStore.rows) := by
  obtain ⟨h1, h2, h3⟩ :=
    mutations_touch_only_target 2 samplePayload sampleStore
  refine ⟨h1, ?_, ?_⟩
  · exact (h2 (mkTrial 2 samplePayload) rfl).2.1
  · exact (h3 { message := "Trial deleted" } rfl).2 sampleTrial1 (by decide)

end ClinicalTrials
